import Mathlib

/-!
Shallow embedding of `src/trends_dashboard_service.py` (the "Launcher").

The script is, in full (two module imports, `sys` and `os`, then):

  if __name__ == "__main__":
      print("=" * 60)
      print("FASHION TRENDS DASHBOARD SERVICE")
      ... (banner lines) ...
      print()
      exec(open('complete_dashboard.py').read())

We model a run of the script as a pure function from an environment
(the value of `__name__`, the argument vector, and the filesystem,
a map from path to optional content) to a trace of observable events
(module imports, `print` calls, the file read, and the `exec` of the
read content in the current namespace), together with an outcome
(`Except PyError Unit`).  The behaviour of the executed dashboard
content is external to this repository, so it is an opaque parameter
`execSem : String → String → Except PyError Unit` taking the content
and the value of `__name__` visible in the namespace the content is
executed in.
-/

/-- Observable events of a run of the launcher script. -/
inductive Event where
  | importMod (m : String)
  | print (s : String)
  | fileRead (path : String)
  | execCode (content : String) (nsName : String)
deriving DecidableEq, Repr

/-- Python-level errors the launcher can surface: a `FileNotFoundError`
from `open`, or any error raised by the executed content. -/
inductive PyError where
  | fileNotFound (path : String)
  | execError (msg : String)
deriving DecidableEq, Repr

/-- Process environment of one invocation: the value of `__name__`,
the command-line argument vector (`sys.argv[1:]`), and the filesystem. -/
structure Env where
  name : String
  argv : List String
  fs : String → Option String

/-- The fixed relative path of the target file, `'complete_dashboard.py'`. -/
def targetPath : String := "complete_dashboard.py"

/-- The separator produced by `"=" * 60`. -/
def sepLine : String := String.mk (List.replicate 60 '=')

/-- The arguments of the thirteen `print` calls of the banner, in source
order; the final `print()` prints the empty string. -/
def bannerLines : List String :=
  [ sepLine
  , "FASHION TRENDS DASHBOARD SERVICE"
  , sepLine
  , "\nStarting Dash application..."
  , "Dashboard will be available at: http://localhost:8051"
  , "\nFeatures:"
  , "  • Overview: Fashion trend analysis with Google Trends"
  , "  • Trends: State-wise analysis & fashion blog reports"
  , "  • Reports: Multi-timeframe comprehensive analysis"
  , "\nPress CTRL+C to stop the server"
  , sepLine
  , "" ]

/-- `import sys` and `import os` at the top of the file, executed on any
load of the script, main entry point or not. -/
def importEvents : List Event :=
  [Event.importMod "sys", Event.importMod "os"]

/-- One run of the launcher script.  Under the `__name__ == "__main__"`
guard it prints the banner, opens and reads `targetPath` in full
(`FileNotFoundError` if absent), and `exec`s the content in the current
namespace; the outcome of the executed content (opaque, external file)
is given by `execSem content nsName` and propagates unhandled. -/
def runLauncher (env : Env) (execSem : String → String → Except PyError Unit) :
    List Event × Except PyError Unit :=
  if env.name = "__main__" then
    let banner := bannerLines.map Event.print
    match env.fs targetPath with
    | none =>
        (importEvents ++ banner, Except.error (PyError.fileNotFound targetPath))
    | some content =>
        let pre := importEvents ++ banner ++ [Event.fileRead targetPath]
        let trace := pre ++ [Event.execCode content env.name]
        match execSem content env.name with
        | Except.ok _ => (trace, Except.ok ())
        | Except.error e => (trace, Except.error e)
  else
    (importEvents, Except.ok ())

/-- Default process exit code derived from the outcome: the launcher never
calls `sys.exit`, so a normal interpreter exit gives 0 and an uncaught
error gives the interpreter's nonzero code (1). -/
def exitCode (r : Except PyError Unit) : Nat :=
  match r with
  | Except.ok _ => 0
  | Except.error _ => 1

/-- Whether a top-level `if __name__ == "__main__"` guard in executed code
fires, given the value of `__name__` in the executing namespace. -/
def mainGuardActive (nsName : String) : Bool := nsName == "__main__"

/-- Recognises a file-read event. -/
def isFileRead : Event → Bool
  | Event.fileRead _ => true
  | _ => false

/-- Concrete environment: run as main, target file present. -/
def envMainOk : Env :=
  { name := "__main__"
  , argv := []
  , fs := fun p => if p = targetPath then some "app.run()" else none }

/-- Concrete environment: run as main, target file absent. -/
def envMissing : Env :=
  { name := "__main__", argv := [], fs := fun _ => none }

/-- Concrete environment: loaded as an imported module. -/
def envImported : Env :=
  { name := "trends_dashboard_service", argv := [], fs := fun _ => none }

/-- Exec semantics in which the executed content succeeds. -/
def execOk : String → String → Except PyError Unit :=
  fun _ _ => Except.ok ()

/-- Exec semantics in which the executed content raises. -/
def execFail (e : PyError) : String → String → Except PyError Unit :=
  fun _ _ => Except.error e

/-- C1: run as the main entry point with the target file present and its
execution succeeding, the launcher's trace is exactly the top-level
imports, then the thirteen banner prints in source order, then the read
of the target file, then its execution: every banner line is printed
before the file is read or executed, and the banner content is the
static list `bannerLines`, taking no parameters. -/
theorem banner_printed_in_order_before_exec (env : Env)
    (execSem : String → String → Except PyError Unit) (c : String)
    (hmain : env.name = "__main__") (hfs : env.fs targetPath = some c)
    (hok : execSem c env.name = Except.ok ()) :
    (runLauncher env execSem).1 =
      importEvents ++ bannerLines.map Event.print ++
        [Event.fileRead targetPath, Event.execCode c env.name] := by
  rw [hmain] at hok
  simp [runLauncher, hmain, hfs, hok]

/-- Witness for C1 at a concrete environment. -/
theorem banner_printed_in_order_before_exec_witness :
    (runLauncher envMainOk execOk).1 =
      importEvents ++ bannerLines.map Event.print ++
        [Event.fileRead targetPath, Event.execCode "app.run()" "__main__"] :=
  banner_printed_in_order_before_exec envMainOk execOk "app.run()"
    rfl (by simp [envMainOk]) rfl

/-- C2: when the target file exists but its content raises during
execution, the very error produced by the executed content is the
launcher's outcome, unmodified: no catching, translation or recovery. -/
theorem exec_error_propagates_unmodified (env : Env)
    (execSem : String → String → Except PyError Unit) (c : String) (e : PyError)
    (hmain : env.name = "__main__") (hfs : env.fs targetPath = some c)
    (herr : execSem c env.name = Except.error e) :
    (runLauncher env execSem).2 = Except.error e := by
  rw [hmain] at herr
  simp [runLauncher, hmain, hfs, herr]

/-- Witness for C2 at a concrete environment and failing content. -/
theorem exec_error_propagates_unmodified_witness :
    (runLauncher envMainOk (execFail (PyError.execError "ImportError: dash"))).2 =
      Except.error (PyError.execError "ImportError: dash") :=
  exec_error_propagates_unmodified envMainOk
    (execFail (PyError.execError "ImportError: dash")) "app.run()"
    (PyError.execError "ImportError: dash") rfl (by simp [envMainOk]) rfl

/-- C3: when the target file does not exist, the launcher fails with a
file-not-found error, and the trace contains no file read and no
execution of target content — no output attributable to a successful
launch. -/
theorem missing_file_fails_without_launch (env : Env)
    (execSem : String → String → Except PyError Unit)
    (hmain : env.name = "__main__") (hfs : env.fs targetPath = none) :
    (runLauncher env execSem).2 = Except.error (PyError.fileNotFound targetPath) ∧
      (∀ p, Event.fileRead p ∉ (runLauncher env execSem).1) ∧
      (∀ c n, Event.execCode c n ∉ (runLauncher env execSem).1) := by
  simp [runLauncher, hmain, hfs, importEvents, bannerLines]

/-- Witness for C3 at a concrete environment. -/
theorem missing_file_fails_without_launch_witness :
    (runLauncher envMissing execOk).2 =
        Except.error (PyError.fileNotFound targetPath) ∧
      Event.fileRead targetPath ∉ (runLauncher envMissing execOk).1 :=
  And.intro
    (missing_file_fails_without_launch envMissing execOk rfl rfl).1
    ((missing_file_fails_without_launch envMissing execOk rfl rfl).2.1 targetPath)

/-- C4: on any run as main with the target file present, whatever the
executed content then does, the trace contains exactly one file read,
of `targetPath`, and the subsequent execution event carries the full
read content and the launcher's own namespace name: the full content is
read once and then executed, with no interleaving of read and
execution. -/
theorem reads_once_then_executes_whole_content (env : Env)
    (execSem : String → String → Except PyError Unit) (c : String)
    (hmain : env.name = "__main__") (hfs : env.fs targetPath = some c) :
    (runLauncher env execSem).1 =
      importEvents ++ bannerLines.map Event.print ++
        [Event.fileRead targetPath, Event.execCode c env.name] ∧
      (runLauncher env execSem).1.countP isFileRead = 1 := by
  have htrace : (runLauncher env execSem).1 =
      importEvents ++ bannerLines.map Event.print ++
        [Event.fileRead targetPath, Event.execCode c env.name] := by
    rw [hmain]
    cases hex : execSem c "__main__" with
    | ok u => simp [runLauncher, hmain, hfs, hex]
    | error e => simp [runLauncher, hmain, hfs, hex]
  refine ⟨htrace, ?_⟩
  rw [htrace]
  simp [importEvents, bannerLines, isFileRead, List.countP_append, List.countP_map]

/-- Witness for C4 at a concrete environment. -/
theorem reads_once_then_executes_whole_content_witness :
    (runLauncher envMainOk execOk).1 =
      importEvents ++ bannerLines.map Event.print ++
        [Event.fileRead targetPath, Event.execCode "app.run()" "__main__"] ∧
      (runLauncher envMainOk execOk).1.countP isFileRead = 1 :=
  reads_once_then_executes_whole_content envMainOk execOk "app.run()"
    rfl (by simp [envMainOk])

/-- C5: the launcher consumes no command-line arguments: two invocations
that differ only in the argument vector, with the same `__name__` and
the same filesystem, have identical traces and outcomes. -/
theorem argv_has_no_observable_effect (n : String) (a₁ a₂ : List String)
    (fs : String → Option String)
    (execSem : String → String → Except PyError Unit) :
    runLauncher ⟨n, a₁, fs⟩ execSem = runLauncher ⟨n, a₂, fs⟩ execSem := rfl

/-- C6: the target path is the constant non-empty string
`"complete_dashboard.py"`, and every file-read event of any run uses
exactly this path. -/
theorem target_path_constant_nonempty (env : Env)
    (execSem : String → String → Except PyError Unit) :
    targetPath = "complete_dashboard.py" ∧ targetPath ≠ "" ∧
      ∀ p, Event.fileRead p ∈ (runLauncher env execSem).1 → p = targetPath := by
  refine ⟨rfl, by decide, fun p hp => ?_⟩
  by_cases hmain : env.name = "__main__"
  · cases hfs : env.fs targetPath with
    | none =>
        simp [runLauncher, hmain, hfs, importEvents, bannerLines] at hp
    | some c =>
        cases hex : execSem c env.name with
        | ok u =>
            rw [hmain] at hex
            simp [runLauncher, hmain, hfs, hex, importEvents, bannerLines] at hp
            exact hp
        | error e =>
            rw [hmain] at hex
            simp [runLauncher, hmain, hfs, hex, importEvents, bannerLines] at hp
            exact hp
  · simp [runLauncher, hmain, importEvents] at hp

/-- Witness for C6: at a concrete run that does read the file, the read
path is the constant. -/
theorem target_path_constant_nonempty_witness :
    targetPath = "complete_dashboard.py" ∧ "complete_dashboard.py" = targetPath :=
  ⟨(target_path_constant_nonempty envMainOk execOk).1,
    (target_path_constant_nonempty envMainOk execOk).2.2 "complete_dashboard.py"
      (by decide)⟩

/-- C7: the launcher never sets an exit code itself; the process exit
code is derived from the outcome alone: 0 when the run ends normally,
nonzero when an uncaught error surfaces from reading or executing the
target content. -/
theorem default_exit_codes (env : Env)
    (execSem : String → String → Except PyError Unit) :
    ((runLauncher env execSem).2 = Except.ok () →
        exitCode (runLauncher env execSem).2 = 0) ∧
      ∀ e, (runLauncher env execSem).2 = Except.error e →
        exitCode (runLauncher env execSem).2 ≠ 0 := by
  constructor
  · intro h
    rw [h]
    rfl
  · intro e h
    rw [h]
    simp [exitCode]

/-- Witness for C7: a normal run exits 0, a failing run exits nonzero. -/
theorem default_exit_codes_witness :
    exitCode (runLauncher envMainOk execOk).2 = 0 ∧
      exitCode (runLauncher envMissing execOk).2 ≠ 0 :=
  ⟨(default_exit_codes envMainOk execOk).1
      (by simp [runLauncher, envMainOk, execOk]),
    (default_exit_codes envMissing execOk).2 (PyError.fileNotFound targetPath)
      (by simp [runLauncher, envMissing])⟩

/-- C8: loaded without being the main entry point (`__name__` is not
`"__main__"`), the launcher produces no output, reads nothing, and
executes nothing beyond the imports of `sys` and `os`. -/
theorem imported_module_does_nothing (env : Env)
    (execSem : String → String → Except PyError Unit)
    (h : env.name ≠ "__main__") :
    runLauncher env execSem = (importEvents, Except.ok ()) := by
  simp [runLauncher, h]

/-- Witness for C8 at a concrete import-time environment. -/
theorem imported_module_does_nothing_witness :
    runLauncher envImported execOk = (importEvents, Except.ok ()) :=
  imported_module_does_nothing envImported execOk (by decide)

/-- C9: even when the target file is absent, all banner lines are
written first and only then does the file-not-found error surface: the
banner emission does not depend on the target file's existence. -/
theorem banner_printed_even_when_file_missing (env : Env)
    (execSem : String → String → Except PyError Unit)
    (hmain : env.name = "__main__") (hfs : env.fs targetPath = none) :
    (runLauncher env execSem).1 = importEvents ++ bannerLines.map Event.print ∧
      (runLauncher env execSem).2 =
        Except.error (PyError.fileNotFound targetPath) := by
  simp [runLauncher, hmain, hfs]

/-- Witness for C9 at a concrete environment with the file absent. -/
theorem banner_printed_even_when_file_missing_witness :
    (runLauncher envMissing execOk).1 =
        importEvents ++ bannerLines.map Event.print ∧
      (runLauncher envMissing execOk).2 =
        Except.error (PyError.fileNotFound targetPath) :=
  banner_printed_even_when_file_missing envMissing execOk rfl rfl

/-- C10: the target content is executed while `__name__` is
`"__main__"` in the shared namespace, so a top-level
`if __name__ == "__main__"` guard inside the executed content fires. -/
theorem exec_happens_under_main_name (env : Env)
    (execSem : String → String → Except PyError Unit) (c : String)
    (hmain : env.name = "__main__") (hfs : env.fs targetPath = some c) :
    Event.execCode c "__main__" ∈ (runLauncher env execSem).1 ∧
      mainGuardActive "__main__" = true := by
  refine ⟨?_, rfl⟩
  cases hex : execSem c env.name with
  | ok u =>
      rw [hmain] at hex
      simp [runLauncher, hmain, hfs, hex]
  | error e =>
      rw [hmain] at hex
      simp [runLauncher, hmain, hfs, hex]

/-- Witness for C10 at a concrete environment. -/
theorem exec_happens_under_main_name_witness :
    Event.execCode "app.run()" "__main__" ∈ (runLauncher envMainOk execOk).1 ∧
      mainGuardActive "__main__" = true :=
  exec_happens_under_main_name envMainOk execOk "app.run()"
    rfl (by simp [envMainOk])
